import Mathlib

/-!
Verification development for the mastodon-mentions-bot program
(`mastodonbot.py` and `plugins/example_plugin.py`).

The Python source is shallowly embedded: exceptions become `Except`,
the logger becomes an explicit list of `LogEntry` values, the filesystem
state relevant to the daemon (the PID file) becomes an explicit record,
and the liveness probe `os.kill(pid, 0)` becomes an oracle
`alive : Nat → Bool`.  Mentions are identified by a `Nat` id; the parts
of a mention's payload that the dispatch logic never inspects are
omitted.
-/

namespace MastodonBot

/-- Python exception classes that the program raises or catches.
`mastodonNetworkError` is `mastodon.MastodonNetworkError`;
`attributeError` is the `AttributeError` raised by assigning to a
read-only property; `syntaxError` stands for an exception raised while
executing a plugin module's source; `valueError` stands for any other
exception a plugin may raise. -/
inductive PyErr where
  | mastodonNetworkError
  | attributeError
  | syntaxError
  | valueError
deriving DecidableEq, Repr

/-- Log lines emitted by the program, reduced to their identifying data. -/
inductive LogEntry where
  | warnUnavailable (plugin : String)
  | errNetwork (plugin : String)
  | errOther (plugin : String)
  | infoMention (mention : Nat)
  | warnNoPluginClass (stem : String)
  | infoAppend (stem : String)
  | infoLoaded (count : Nat)
deriving DecidableEq, Repr

/-- A loaded plugin instance, as dispatched to by
`MastodonBot._process_mention_with_plugin`.

* `availSettable` records whether `is_available` is a plain writable
  attribute (`True`) or — as in the repository's own
  `plugins/example_plugin.py` — a read-only `@property` with no setter,
  in which case the assignment `plugin.is_available = False` raises
  `AttributeError`.
* `is_available` is the boolean that reading the attribute yields at
  dispatch time (for the example plugin this is computed from
  connectivity; the dispatcher only sees the boolean).
* `raises` is the outcome of calling `process_mention` on the current
  mention: `none` means it returns normally, `some e` means it raises `e`. -/
structure Plugin where
  name : String
  availSettable : Bool
  is_available : Bool
  raises : Option PyErr
deriving DecidableEq, Repr

/-- Embeds `MastodonBot._process_mention_with_plugin` (mastodonbot.py
lines 280-296).  The `try` body reads `plugin.is_available`; if truthy it
calls `plugin.process_mention(mention)`, otherwise it logs a warning.
`except mastodon.MastodonNetworkError` assigns
`plugin.is_available = False` — which raises `AttributeError` when the
attribute is a read-only property, and an exception raised inside an
`except` handler propagates (it is not caught by the following
`except Exception` clause) — then logs an error.  `except Exception`
logs the error and returns.  The result carries the (possibly mutated)
plugin, the log lines emitted, and the `process_mention` invocations
performed, as pairs of mention id and plugin name. -/
def processMentionWithPlugin (m : Nat) (p : Plugin) :
    Except PyErr (Plugin × List LogEntry × List (Nat × String)) :=
  if p.is_available then
    match p.raises with
    | Option.none => Except.ok (p, [], [(m, p.name)])
    | some PyErr.mastodonNetworkError =>
        if p.availSettable then
          Except.ok ({ p with is_available := false },
                     [LogEntry.errNetwork p.name], [(m, p.name)])
        else
          Except.error PyErr.attributeError
    | some _ => Except.ok (p, [LogEntry.errOther p.name], [(m, p.name)])
  else
    Except.ok (p, [LogEntry.warnUnavailable p.name], [])

/-- The `for plugin in self.plugins` loop of `MastodonBot._process_mention`
(lines 274-275): each plugin is dispatched in order; an exception escaping
`_process_mention_with_plugin` aborts the loop and propagates. -/
def dispatchList (m : Nat) :
    List Plugin → Except PyErr (List Plugin × List LogEntry × List (Nat × String))
  | [] => Except.ok ([], [], [])
  | p :: rest =>
    match processMentionWithPlugin m p with
    | Except.error e => Except.error e
    | Except.ok (p', lg, iv) =>
      match dispatchList m rest with
      | Except.error e => Except.error e
      | Except.ok (ps, lgs, ivs) => Except.ok (p' :: ps, lg ++ lgs, iv ++ ivs)

/-- State threaded through the mention-processing loop.  `plugins` is
`self.plugins`; `reloads` counts the calls the processor makes to
`PluginLoader.load_plugins`; `processed` lists the mentions for which
`_process_mention` ran to completion; `invoked` accumulates the
`process_mention` invocations; `log` accumulates log lines. -/
structure ProcState where
  plugins : List Plugin
  reloads : Nat
  processed : List Nat
  invoked : List (Nat × String)
  log : List LogEntry
deriving DecidableEq, Repr

/-- Embeds `MastodonBot._process_mention` (lines 269-278): log the
mention, dispatch it to every plugin of the current snapshot, then
reload the plugins (`self.plugins = self.plugin_loader.load_plugins(...)`).
The `loader` parameter is the fresh instance list that
`load_plugins` returns for the current plugin directory.  An exception
escaping the dispatch loop propagates, skipping the reload. -/
def process_mention (loader : List Plugin) (s : ProcState) (m : Nat) :
    Except PyErr ProcState :=
  match dispatchList m s.plugins with
  | Except.error e => Except.error e
  | Except.ok (_, lgs, ivs) =>
    Except.ok { plugins := loader,
                reloads := s.reloads + 1,
                processed := s.processed ++ [m],
                invoked := s.invoked ++ ivs,
                log := s.log ++ (LogEntry.infoMention m :: lgs) }

/-- Embeds the draining loop of `MastodonBot._process_mentions`
(lines 257-267) on the queue contents up to the `None` sentinel: each
dequeued mention is handed to `_process_mention`; an exception escaping
it kills the thread (no further mention is processed). -/
def processMentions (loader : List Plugin) (s : ProcState) :
    List Nat → Except PyErr ProcState
  | [] => Except.ok s
  | m :: ms =>
    match process_mention loader s m with
    | Except.error e => Except.error e
    | Except.ok s' => processMentions loader s' ms

/-- A candidate plugin file as seen by `PluginLoader.load_plugins`
(a `*.py` entry yielded by the directory scan).  `execRaises` is the
outcome of `spec.loader.exec_module(module)` (`some e`: executing the
source raises `e`, e.g. a syntax error); `hasPluginClass` is
`hasattr(module, "MastodonBotPlugin")`; `inst` is the instance
`module.MastodonBotPlugin(client)` constructed when the file is
accepted. -/
structure PluginFile where
  stem : String
  execRaises : Option PyErr
  hasPluginClass : Bool
  inst : Plugin
deriving DecidableEq, Repr

/-- Models `str.startswith` applied to the underscore privacy marker,
as in `file_path.stem.startswith("_")` (line 368): the first character
of the stem is an underscore. -/
def startsWithUnderscore (s : String) : Bool :=
  s.data.take 1 == ['_']

/-- Embeds `PluginLoader._load_plugin` (lines 385-397).  Note the body
has no `try`/`except`: an exception from `exec_module` propagates.  A
module without a `MastodonBotPlugin` class logs a warning and yields
`None`; otherwise the class is instantiated. -/
def load_plugin (f : PluginFile) :
    Except PyErr (Option Plugin × List LogEntry) :=
  match f.execRaises with
  | some e => Except.error e
  | Option.none =>
    if f.hasPluginClass then Except.ok (some f.inst, [])
    else Except.ok (Option.none, [LogEntry.warnNoPluginClass f.stem])

/-- The `for file_path in plugin_folder.glob('*.py')` loop of
`PluginLoader.load_plugins` (lines 367-373), over the files in the
order the directory scan yields them (Python's `Path.glob` applies no
sorting).  Underscore-prefixed stems are skipped; accepted instances
are appended in encounter order with an info log; an exception from
`_load_plugin` propagates. -/
def loadGo : List PluginFile → Except PyErr (List Plugin × List LogEntry)
  | [] => Except.ok ([], [])
  | f :: rest =>
    if startsWithUnderscore f.stem then loadGo rest
    else
      match load_plugin f with
      | Except.error e => Except.error e
      | Except.ok (Option.none, lg) =>
        match loadGo rest with
        | Except.error e => Except.error e
        | Except.ok (ps, lgs) => Except.ok (ps, lg ++ lgs)
      | Except.ok (some p, lg) =>
        match loadGo rest with
        | Except.error e => Except.error e
        | Except.ok (ps, lgs) =>
          Except.ok (p :: ps, lg ++ (LogEntry.infoAppend f.stem :: lgs))

/-- Embeds `PluginLoader.load_plugins` (lines 361-375): run the scan
loop, then log the final count. -/
def load_plugins (files : List PluginFile) :
    Except PyErr (List Plugin × List LogEntry) :=
  match loadGo files with
  | Except.error e => Except.error e
  | Except.ok (ps, lgs) => Except.ok (ps, lgs ++ [LogEntry.infoLoaded ps.length])

/-- The names of the instances a `load_plugins` run returned (empty on
an escaping exception). -/
def loadedNames (r : Except PyErr (List Plugin × List LogEntry)) : List String :=
  match r with
  | Except.error _ => []
  | Except.ok (ps, _) => ps.map Plugin.name

/-- The error raised by `Notifier.send`.  The source has a single
`NotifierError` class carrying a formatted string; the two raise sites
produce distinguishable messages, modeled as two constructors, each
carrying the original message `msg` interpolated into the string. -/
inductive NotifierError where
  | unconfigured (msg : String)
  | deliveryFailed (msg : String)
deriving DecidableEq, Repr

/-- Embeds `Notifier.send` (mastodonbot.py lines 63-74).  The Apprise
sink is an oracle `notify` giving, for each successive call the code
might make, the value `self.apprise.notify(body=msg)` would return:
`none` embeds Python `None` (no service configured), `some b` the
boolean delivery result.  The source makes exactly one call, then
branches: `None` raises the unconfigured error, a falsy result raises
the delivery-failed error, and a truthy result returns normally. -/
def send (msg : String) (notify : Nat → Option Bool) : Except NotifierError Unit :=
  match notify 0 with
  | Option.none => Except.error (NotifierError.unconfigured msg)
  | some false => Except.error (NotifierError.deliveryFailed msg)
  | some true => Except.ok ()

/-- The daemon-visible filesystem state: the PID file at
`~/.mastodonbot.pid`, whose contents (written as `str(os.getpid())`,
read back through `int(...)`) are modeled as the recorded pid. -/
structure DaemonFS where
  pidfile : Option Nat
deriving DecidableEq, Repr

/-- Truthiness of a Python value that is either `None` or a `bool`,
as tested by `if bot.is_running():` at the call sites. -/
def asBool : Option Bool → Bool
  | Option.none => false
  | some b => b

/-- Embeds `MastodonBot.is_running` (lines 328-347).  `alive pid` is the
outcome of the probe `os.kill(pid, 0)` (true: no `OSError`).  When the
PID file does not exist the function falls off the end: Python returns
`None`, embedded as `Option.none` — distinct from `some false`.  A falsy
recorded pid returns `False` without touching the file; a dead pid
removes the PID file and returns `False`; a live pid returns `True`.
The second component is the filesystem state afterwards. -/
def is_running (alive : Nat → Bool) (fs : DaemonFS) : Option Bool × DaemonFS :=
  match fs.pidfile with
  | Option.none => (Option.none, fs)
  | some pid =>
    if pid = 0 then (some false, fs)
    else if alive pid then (some true, fs)
    else (some false, { pidfile := Option.none })

/-- Embeds the CLI `status()` (lines 412-416). -/
def status (alive : Nat → Bool) (fs : DaemonFS) : String × DaemonFS :=
  match is_running alive fs with
  | (r, fs') =>
    (if asBool r then "Mastodon bot is running."
     else "Mastodon bot is not running.", fs')

/-- The externally visible side effects of one `start()` call. -/
structure StartEffects where
  forked : Bool
  pidfileWritten : Bool
  pluginsLoaded : Bool
  mentionThreadStarted : Bool
  streamThreadStarted : Bool
deriving DecidableEq, Repr

/-- No side effect at all. -/
def noEffects : StartEffects :=
  { forked := false, pidfileWritten := false, pluginsLoaded := false,
    mentionThreadStarted := false, streamThreadStarted := false }

/-- Embeds `MastodonBot.start` (lines 165-210) from the point of view of
the surviving (daemon) process.  If `is_running()` is truthy the method
only logs (reading, not writing, the PID file via `get_pid`) and
returns.  Otherwise it forks, detaches, writes its own pid `selfPid` to
the PID file, loads the plugins and starts the two worker threads. -/
def start (alive : Nat → Bool) (selfPid : Nat) (fs : DaemonFS) :
    DaemonFS × StartEffects :=
  match is_running alive fs with
  | (r, fs') =>
    if asBool r then (fs', noEffects)
    else ({ pidfile := some selfPid },
          { forked := true, pidfileWritten := true, pluginsLoaded := true,
            mentionThreadStarted := true, streamThreadStarted := true })

/-- Embeds the CLI `stop()` (lines 419-423): when `is_running()` is
truthy, read the recorded pid and send it `SIGTERM`.  The first
component is the pid signalled, if any. -/
def stop (alive : Nat → Bool) (fs : DaemonFS) : Option Nat × DaemonFS :=
  match is_running alive fs with
  | (r, fs') =>
    if asBool r then (fs'.pidfile, fs')
    else (Option.none, fs')

/-- A Python value as tested for truthiness by a `while`/`if` guard. -/
inductive PyVal where
  | boundMethod
  | pybool (b : Bool)
  | pynone
deriving DecidableEq, Repr

/-- Python truthiness: a bound-method object is always truthy. -/
def truthy : PyVal → Bool
  | PyVal.boundMethod => true
  | PyVal.pybool b => b
  | PyVal.pynone => false

/-- The guard expression of the loops at lines 218, 233 and 261:
`self.is_running` — the attribute itself, with no call parentheses —
which evaluates to the bound-method object, never to the result of
calling `is_running()`. -/
def loop_guard : PyVal := PyVal.boundMethod

/-- The reconnect loop of `_stream_mentions_from_listener` (lines
233-241) in the regime where every connection attempt raises
`MastodonNetworkError`: counts how many log-wait-reconnect iterations
run within `fuel` guard evaluations.  `runFlagValue` is what
`is_running()` would return at each check; the source never calls it,
testing `truthy loop_guard` instead. -/
def streamReconnects (runFlagValue : Bool) : Nat → Nat
  | 0 => 0
  | fuel + 1 =>
    if truthy loop_guard then streamReconnects runFlagValue fuel + 1 else 0

/-- Concatenation of the images of a list-valued function, in order. -/
def concatMap (f : α → List β) : List α → List β
  | [] => []
  | a :: l => f a ++ concatMap f l

theorem concatMap_nil (f : α → List β) : concatMap f [] = [] := rfl

theorem concatMap_cons (f : α → List β) (a : α) (l : List α) :
    concatMap f (a :: l) = f a ++ concatMap f l := rfl

theorem concatMap_append (f : α → List β) (l₁ l₂ : List α) :
    concatMap f (l₁ ++ l₂) = concatMap f l₁ ++ concatMap f l₂ := by
  induction l₁ with
  | nil => rfl
  | cons a l ih => simp [concatMap_cons, ih, List.append_assoc]

/-- The one plugin state for which `_process_mention_with_plugin` lets
an exception escape: the plugin is available, `process_mention` raises
`MastodonNetworkError`, and `is_available` is a read-only property, so
the handler's assignment raises `AttributeError`. -/
def aborts (p : Plugin) : Bool :=
  p.is_available && (p.raises == some PyErr.mastodonNetworkError) && !p.availSettable

/-- The plugin state after a non-aborting dispatch step. -/
def stepPlugin (p : Plugin) : Plugin :=
  if p.is_available && (p.raises == some PyErr.mastodonNetworkError) then
    { p with is_available := false }
  else p

/-- The log lines of a non-aborting dispatch step. -/
def stepLog (p : Plugin) : List LogEntry :=
  if p.is_available then
    match p.raises with
    | Option.none => []
    | some PyErr.mastodonNetworkError => [LogEntry.errNetwork p.name]
    | some _ => [LogEntry.errOther p.name]
  else [LogEntry.warnUnavailable p.name]

/-- The `process_mention` invocations of a non-aborting dispatch step:
an available plugin is invoked, an unavailable one is skipped. -/
def stepInv (m : Nat) (p : Plugin) : List (Nat × String) :=
  if p.is_available then [(m, p.name)] else []

theorem processMentionWithPlugin_ok (m : Nat) (p : Plugin)
    (h : aborts p = false) :
    processMentionWithPlugin m p = Except.ok (stepPlugin p, stepLog p, stepInv m p) := by
  unfold processMentionWithPlugin stepPlugin stepLog stepInv
  cases hav : p.is_available with
  | false => simp [hav]
  | true =>
    cases hr : p.raises with
    | none => simp [hav, hr]
    | some e =>
      cases e with
      | mastodonNetworkError =>
        cases hs : p.availSettable with
        | false => simp [aborts, hav, hr, hs] at h
        | true => simp [hav, hr, hs]
      | attributeError => simp [hav, hr]
      | syntaxError => simp [hav, hr]
      | valueError => simp [hav, hr]

theorem dispatchList_ok (m : Nat) (ps : List Plugin)
    (h : ∀ p ∈ ps, aborts p = false) :
    dispatchList m ps =
      Except.ok (ps.map stepPlugin, concatMap stepLog ps, concatMap (stepInv m) ps) := by
  induction ps with
  | nil => rfl
  | cons p rest ih =>
    have hp : aborts p = false := h p (List.mem_cons_self p rest)
    have hrest : ∀ q ∈ rest, aborts q = false := fun q hq => h q (List.mem_cons_of_mem p hq)
    simp [dispatchList, processMentionWithPlugin_ok m p hp, ih hrest,
          concatMap_cons]

/-- The processor state after one abort-free `_process_mention` run:
plugins replaced by the reload result, one more reload, the mention
recorded as processed, the invocations and log lines of its dispatch
appended. -/
def afterMention (loader : List Plugin) (s : ProcState) (m : Nat) : ProcState :=
  { plugins := loader,
    reloads := s.reloads + 1,
    processed := s.processed ++ [m],
    invoked := s.invoked ++ concatMap (stepInv m) s.plugins,
    log := s.log ++ (LogEntry.infoMention m :: concatMap stepLog s.plugins) }

theorem process_mention_ok (loader : List Plugin) (s : ProcState) (m : Nat)
    (h : ∀ p ∈ s.plugins, aborts p = false) :
    process_mention loader s m = Except.ok (afterMention loader s m) := by
  simp [process_mention, dispatchList_ok m s.plugins h, afterMention]

/-- A candidate file is accepted when it is not underscore-private and
exposes the `MastodonBotPlugin` class. -/
def acceptedFile (f : PluginFile) : Bool :=
  !startsWithUnderscore f.stem && f.hasPluginClass

/-- The log lines the scan loop emits for one candidate file, in the
regime where executing its source does not raise. -/
def fileLog (f : PluginFile) : List LogEntry :=
  if startsWithUnderscore f.stem then []
  else if f.hasPluginClass then [LogEntry.infoAppend f.stem]
  else [LogEntry.warnNoPluginClass f.stem]

theorem loadGo_ok (files : List PluginFile)
    (h : ∀ f ∈ files, f.execRaises = Option.none) :
    loadGo files =
      Except.ok ((files.filter acceptedFile).map PluginFile.inst,
                 concatMap fileLog files) := by
  induction files with
  | nil => rfl
  | cons f rest ih =>
    have hf : f.execRaises = Option.none := h f (List.mem_cons_self f rest)
    have hrest : ∀ g ∈ rest, g.execRaises = Option.none :=
      fun g hg => h g (List.mem_cons_of_mem f hg)
    cases hu : startsWithUnderscore f.stem with
    | true =>
      simp [loadGo, hu, ih hrest, List.filter_cons, acceptedFile, fileLog,
            concatMap_cons]
    | false =>
      cases hc : f.hasPluginClass with
      | true =>
        simp [loadGo, hu, load_plugin, hf, hc, ih hrest, List.filter_cons,
              acceptedFile, fileLog, concatMap_cons]
      | false =>
        simp [loadGo, hu, load_plugin, hf, hc, ih hrest, List.filter_cons,
              acceptedFile, fileLog, concatMap_cons]

theorem load_plugins_ok (files : List PluginFile)
    (h : ∀ f ∈ files, f.execRaises = Option.none) :
    load_plugins files =
      Except.ok ((files.filter acceptedFile).map PluginFile.inst,
                 concatMap fileLog files ++
                   [LogEntry.infoLoaded ((files.filter acceptedFile).length)]) := by
  simp [load_plugins, loadGo_ok files h]

theorem mem_concatMap (f : α → List β) (l : List α) (a : α) (b : β)
    (ha : a ∈ l) (hb : b ∈ f a) : b ∈ concatMap f l := by
  induction l with
  | nil => cases ha
  | cons x xs ih =>
    rcases List.mem_cons.mp ha with h | h
    · subst h; exact List.mem_append.mpr (Or.inl hb)
    · exact List.mem_append.mpr (Or.inr (ih h))

theorem process_mention_inv (loader : List Plugin) (s : ProcState) (m : Nat)
    (s' : ProcState) (h : process_mention loader s m = Except.ok s') :
    s'.reloads = s.reloads + 1 ∧ s'.processed = s.processed ++ [m] := by
  unfold process_mention at h
  cases hd : dispatchList m s.plugins with
  | error e => rw [hd] at h; cases h
  | ok x =>
    obtain ⟨a, lgs, ivs⟩ := x
    rw [hd] at h
    simp at h
    subst h
    simp

/-- Claim C5: `Notifier.send` raises the unconfigured `NotifierError` exactly
when the delivery call yields no result, raises the delivery-failed
`NotifierError` carrying the original message exactly when the sink reports
failure, raises nothing exactly when the sink reports success, and consults
only the single delivery call it makes — no retry in any case. -/
theorem notifier_send_contract (msg : String) (notify : Nat → Option Bool) :
    (send msg notify = Except.error (NotifierError.unconfigured msg)
        ↔ notify 0 = Option.none)
    ∧ (send msg notify = Except.error (NotifierError.deliveryFailed msg)
        ↔ notify 0 = some false)
    ∧ (send msg notify = Except.ok () ↔ notify 0 = some true)
    ∧ (∀ g : Nat → Option Bool, g 0 = notify 0 → send msg g = send msg notify) := by
  refine ⟨?_, ?_, ?_, fun g hg => by unfold send; rw [hg]⟩
  all_goals
    cases h : notify 0 with
    | none => simp [send, h]
    | some b => cases b <;> simp [send, h]

/-- Witness for C5 at concrete inputs: a succeeding sink and a missing sink. -/
theorem notifier_send_contract_witness :
    send "ping" (fun _ => some true) = Except.ok ()
    ∧ send "ping" (fun _ => Option.none)
        = Except.error (NotifierError.unconfigured "ping") :=
  ⟨(notifier_send_contract "ping" (fun _ => some true)).2.2.1.mpr rfl,
   (notifier_send_contract "ping" (fun _ => Option.none)).1.mpr rfl⟩

/-- Claim C10: when the PID file does not exist, `is_running` falls off the
end and returns Python `None` — not the boolean `False` — and every caller's
truthiness test treats that value as not running: `status` reports not
running, `start` takes the not-running branch and daemonizes, and the CLI
`stop` signals no process. -/
theorem is_running_none_without_pidfile (alive : Nat → Bool) (selfPid : Nat)
    (fs : DaemonFS) (h : fs.pidfile = Option.none) :
    (is_running alive fs).1 = Option.none
    ∧ (is_running alive fs).1 ≠ some false
    ∧ asBool (is_running alive fs).1 = false
    ∧ (status alive fs).1 = "Mastodon bot is not running."
    ∧ (start alive selfPid fs).2 =
        { forked := true, pidfileWritten := true, pluginsLoaded := true,
          mentionThreadStarted := true, streamThreadStarted := true }
    ∧ (stop alive fs).1 = Option.none := by
  simp [is_running, status, start, stop, asBool, h]

/-- Witness for C10: the empty filesystem state. -/
theorem is_running_none_without_pidfile_witness :
    (is_running (fun _ => true) { pidfile := Option.none }).1 = Option.none
    ∧ (status (fun _ => true) { pidfile := Option.none }).1
        = "Mastodon bot is not running."
    ∧ (stop (fun _ => true) { pidfile := Option.none }).1 = Option.none :=
  ⟨(is_running_none_without_pidfile (fun _ => true) 5 { pidfile := Option.none } rfl).1,
   (is_running_none_without_pidfile (fun _ => true) 5 { pidfile := Option.none } rfl).2.2.2.1,
   (is_running_none_without_pidfile (fun _ => true) 5 { pidfile := Option.none } rfl).2.2.2.2.2⟩

/-- Claim C6: with a PID file recording a process id that is not alive, a
status check reports not running and the PID file no longer exists
afterwards.  The hypothesis `alive 0 = true` records the POSIX fact that
`os.kill(0, 0)` signals the caller's own process group and never raises, so
a recorded pid that is not alive is in particular nonzero. -/
theorem stale_pidfile_self_heal (alive : Nat → Bool) (fs : DaemonFS) (pid : Nat)
    (h0 : alive 0 = true) (hf : fs.pidfile = some pid) (hd : alive pid = false) :
    (status alive fs).1 = "Mastodon bot is not running."
    ∧ (status alive fs).2.pidfile = Option.none
    ∧ (is_running alive fs).1 = some false
    ∧ (is_running alive fs).2.pidfile = Option.none := by
  have hpid : pid ≠ 0 := fun e => by simp [e, h0] at hd
  simp [status, is_running, asBool, hf, hpid, hd]

/-- Witness for C6: a PID file recording the dead pid 7 while only the
process group probe for 0 succeeds. -/
theorem stale_pidfile_self_heal_witness :
    (status (fun n => decide (n = 0)) { pidfile := some 7 }).1
        = "Mastodon bot is not running."
    ∧ (status (fun n => decide (n = 0)) { pidfile := some 7 }).2.pidfile
        = Option.none
    ∧ (is_running (fun n => decide (n = 0)) { pidfile := some 7 }).1 = some false
    ∧ (is_running (fun n => decide (n = 0)) { pidfile := some 7 }).2.pidfile
        = Option.none :=
  stale_pidfile_self_heal (fun n => decide (n = 0)) { pidfile := some 7 } 7
    rfl rfl rfl

/-- Claim C7: starting while a valid instance is already running (PID file
present, nonzero recorded pid, process alive) only logs and returns: no
fork, no PID file write, no plugin load, no thread start, and the PID file
still contains the original process id. -/
theorem start_when_running_is_noop (alive : Nat → Bool) (selfPid : Nat)
    (fs : DaemonFS) (pid : Nat)
    (hf : fs.pidfile = some pid) (hp : pid ≠ 0) (ha : alive pid = true) :
    start alive selfPid fs = (fs, noEffects)
    ∧ (start alive selfPid fs).1.pidfile = some pid := by
  have h1 : start alive selfPid fs = (fs, noEffects) := by
    simp [start, is_running, asBool, hf, hp, ha]
  exact ⟨h1, by rw [h1]; exact hf⟩

/-- Witness for C7: a running instance with pid 7. -/
theorem start_when_running_is_noop_witness :
    start (fun _ => true) 99 { pidfile := some 7 }
        = ({ pidfile := some 7 }, noEffects)
    ∧ (start (fun _ => true) 99 { pidfile := some 7 }).1.pidfile = some 7 :=
  start_when_running_is_noop (fun _ => true) 99 { pidfile := some 7 } 7
    rfl (by decide) rfl

/-- Claim C9: each completed `_process_mention` run performs exactly one
plugin reload after dispatching to all plugins, so over any drained queue
the number of reload calls equals the number of mentions processed —
whatever the number of plugins. -/
theorem reload_once_per_mention (loader : List Plugin) :
    (∀ (s : ProcState) (m : Nat) (s' : ProcState),
        process_mention loader s m = Except.ok s' →
        s'.reloads = s.reloads + 1 ∧ s'.processed = s.processed ++ [m])
    ∧ (∀ (ms : List Nat) (s s' : ProcState),
        processMentions loader s ms = Except.ok s' →
        s'.reloads = s.reloads + ms.length
        ∧ s'.processed.length = s.processed.length + ms.length) := by
  refine ⟨fun s m s' h => process_mention_inv loader s m s' h, ?_⟩
  intro ms
  induction ms with
  | nil =>
    intro s s' h
    simp [processMentions] at h
    subst h
    simp
  | cons m ms ih =>
    intro s s' h
    unfold processMentions at h
    cases hp : process_mention loader s m with
    | error e => rw [hp] at h; cases h
    | ok s1 =>
      rw [hp] at h
      simp at h
      obtain ⟨h1, h2⟩ := process_mention_inv loader s m s1 hp
      obtain ⟨r1, r2⟩ := ih s1 s' h
      constructor
      · rw [r1, h1, List.length_cons]; omega
      · rw [r2, h2]; simp [List.length_append]; omega

/-- Witness for C9: one mention processed against an empty plugin set. -/
theorem reload_once_per_mention_witness :
    ({ plugins := [], reloads := 1, processed := [3], invoked := [],
       log := [LogEntry.infoMention 3] } : ProcState).reloads
      = ({ plugins := [], reloads := 0, processed := [], invoked := [],
           log := [] } : ProcState).reloads + 1
    ∧ ({ plugins := [], reloads := 1, processed := [3], invoked := [],
         log := [LogEntry.infoMention 3] } : ProcState).processed
      = ({ plugins := [], reloads := 0, processed := [], invoked := [],
           log := [] } : ProcState).processed ++ [3] :=
  (reload_once_per_mention []).1
    { plugins := [], reloads := 0, processed := [], invoked := [], log := [] } 3
    { plugins := [], reloads := 1, processed := [3], invoked := [],
      log := [LogEntry.infoMention 3] }
    rfl

/-- The repository's own example plugin at the failing moment: its
`is_available` is a read-only property (no setter) that read `True`, and its
`process_mention` raises `MastodonNetworkError`. -/
def examplePluginDown : Plugin :=
  { name := "MastodonBotPlugin", availSettable := false, is_available := true,
    raises := some PyErr.mastodonNetworkError }

/-- Claim C2 (code bug): with the repository's own plugin — whose
`is_available` is a read-only property — a `process_mention` raising
`MastodonNetworkError` makes the handler's assignment
`plugin.is_available = False` raise `AttributeError`, which escapes
`_process_mention_with_plugin` (no flag set, no error logged) and kills the
mention-processing loop, instead of soft-disabling the plugin and
continuing. -/
theorem readonly_availability_assignment_bug :
    processMentionWithPlugin 0 examplePluginDown
      = Except.error PyErr.attributeError
    ∧ processMentions [examplePluginDown]
        { plugins := [examplePluginDown], reloads := 0, processed := [],
          invoked := [], log := [] } [0]
      = Except.error PyErr.attributeError :=
  ⟨rfl, rfl⟩

/-- Claim C4 (code bug): the loop guards at lines 218, 233 and 261 test the
attribute `self.is_running` without calling it; a bound-method object is
always truthy, so neither the stream loop nor the queue loop can exit
through the run condition, and the reconnect loop keeps iterating however
`is_running()` would evaluate — in particular after it would have become
falsy. -/
theorem run_condition_never_rechecked :
    truthy loop_guard = true
    ∧ (∀ (runFlagValue : Bool) (fuel : Nat),
        streamReconnects runFlagValue fuel = fuel) := by
  refine ⟨rfl, fun b n => ?_⟩
  induction n with
  | zero => rfl
  | succ k ih => simp [streamReconnects, truthy, loop_guard, ih]

/-- A loadable candidate file exposing the plugin class. -/
def fileOkA : PluginFile :=
  { stem := "aaa", execRaises := Option.none, hasPluginClass := true,
    inst := { name := "aaa", availSettable := true, is_available := true,
              raises := Option.none } }

/-- A candidate file whose source raises on execution (e.g. a syntax
error in the plugin module). -/
def fileBadExec : PluginFile :=
  { stem := "bbb", execRaises := some PyErr.syntaxError, hasPluginClass := true,
    inst := { name := "bbb", availSettable := true, is_available := true,
              raises := Option.none } }

/-- A second loadable candidate file. -/
def fileOkC : PluginFile :=
  { stem := "ccc", execRaises := Option.none, hasPluginClass := true,
    inst := { name := "ccc", availSettable := true, is_available := true,
              raises := Option.none } }

/-- A candidate file without the `MastodonBotPlugin` class. -/
def fileNoClass : PluginFile :=
  { stem := "ddd", execRaises := Option.none, hasPluginClass := false,
    inst := { name := "ddd", availSettable := true, is_available := true,
              raises := Option.none } }

/-- Counterexample to claim C1 as stated: one candidate whose source raises
on execution makes `load_plugins` itself raise — no warning, and the other,
loadable candidates are lost — instead of skipping that candidate. -/
theorem load_not_isolated_counterexample :
    load_plugins [fileOkA, fileBadExec, fileOkC]
      = Except.error PyErr.syntaxError :=
  rfl

/-- Claim C1 as amended: only the missing-interface failure is isolated.
When no candidate's source raises on execution, every candidate lacking the
`MastodonBotPlugin` class is skipped with a logged warning and `load_plugins`
returns the instances of all accepted candidates; but a candidate whose
source raises on execution propagates its exception out of `load_plugins`,
aborting the whole load (see the counterexample). -/
theorem load_isolation_amended (files : List PluginFile)
    (h : ∀ f ∈ files, f.execRaises = Option.none) :
    load_plugins files
      = Except.ok ((files.filter acceptedFile).map PluginFile.inst,
          concatMap fileLog files
            ++ [LogEntry.infoLoaded ((files.filter acceptedFile).length)])
    ∧ ∀ f ∈ files, startsWithUnderscore f.stem = false →
        f.hasPluginClass = false →
        LogEntry.warnNoPluginClass f.stem ∈ concatMap fileLog files := by
  refine ⟨load_plugins_ok files h, ?_⟩
  intro f hf h1 h2
  exact mem_concatMap fileLog files f (LogEntry.warnNoPluginClass f.stem) hf
    (by simp [fileLog, h1, h2])

/-- Witness for C1's amended claim: a loadable candidate plus a candidate
lacking the plugin class. -/
theorem load_isolation_amended_witness :
    load_plugins [fileOkA, fileNoClass]
      = Except.ok ([fileOkA.inst],
          [LogEntry.infoAppend "aaa", LogEntry.warnNoPluginClass "ddd",
           LogEntry.infoLoaded 1]) :=
  (load_isolation_amended [fileOkA, fileNoClass] (by decide)).1

/-- A loadable candidate with stem "bbb", yielded first by the directory
scan. -/
def fileScanB : PluginFile :=
  { stem := "bbb", execRaises := Option.none, hasPluginClass := true,
    inst := { name := "bbb", availSettable := true, is_available := true,
              raises := Option.none } }

/-- A loadable candidate with stem "aaa", yielded second by the directory
scan. -/
def fileScanA : PluginFile :=
  { stem := "aaa", execRaises := Option.none, hasPluginClass := true,
    inst := { name := "aaa", availSettable := true, is_available := true,
              raises := Option.none } }

/-- Counterexample to claim C8 as stated: `load_plugins` applies no sorting,
so with a directory scan yielding "bbb" before "aaa" the instances come
back in scan order — strictly decreasing, not lexicographic by filename. -/
theorem load_order_counterexample :
    loadedNames (load_plugins [fileScanB, fileScanA]) = ["bbb", "aaa"]
    ∧ "aaa".data < "bbb".data :=
  ⟨rfl, by decide⟩

/-- Claim C8 as amended: `load_plugins` returns the accepted instances in
the order the directory scan yields the candidate files — it applies no
sorting, so the order is the filesystem enumeration order, not a guaranteed
lexicographic one — and for every mention the dispatch loop goes through
exactly the returned plugins in exactly the returned order, invoking those
whose availability flag is true. -/
theorem load_order_amended (files : List PluginFile) (m : Nat)
    (h : ∀ f ∈ files, f.execRaises = Option.none)
    (hna : ∀ f ∈ files, aborts f.inst = false) :
    loadedNames (load_plugins files)
      = ((files.filter acceptedFile).map PluginFile.inst).map Plugin.name
    ∧ dispatchList m ((files.filter acceptedFile).map PluginFile.inst)
        = Except.ok
            (((files.filter acceptedFile).map PluginFile.inst).map stepPlugin,
             concatMap stepLog ((files.filter acceptedFile).map PluginFile.inst),
             concatMap (stepInv m)
               ((files.filter acceptedFile).map PluginFile.inst)) := by
  constructor
  · simp [loadedNames, load_plugins_ok files h]
  · refine dispatchList_ok m _ ?_
    intro q hq
    obtain ⟨f, hf, hfe⟩ := List.mem_map.mp hq
    rw [← hfe]
    exact hna f (List.mem_of_mem_filter hf)

/-- Witness for C8's amended claim: the scan yields "bbb" then "aaa" and
the returned instance order matches the scan order. -/
theorem load_order_amended_witness :
    loadedNames (load_plugins [fileScanB, fileScanA]) = ["bbb", "aaa"]
    ∧ dispatchList 0 [fileScanB.inst, fileScanA.inst]
        = Except.ok ([fileScanB.inst, fileScanA.inst], [],
            [(0, "bbb"), (0, "aaa")]) :=
  ⟨(load_order_amended [fileScanB, fileScanA] 0 (by decide) (by decide)).1,
   (load_order_amended [fileScanB, fileScanA] 0 (by decide) (by decide)).2⟩

/-- An available plugin whose `process_mention` raises a generic
non-network error. -/
def pluginOtherError : Plugin :=
  { name := "alpha", availSettable := true, is_available := true,
    raises := some PyErr.valueError }

/-- An available plugin with a read-only `is_available` property whose
`process_mention` raises `MastodonNetworkError`. -/
def pluginNetworkReadonly : Plugin :=
  { name := "beta", availSettable := false, is_available := true,
    raises := some PyErr.mastodonNetworkError }

/-- A well-behaved available plugin. -/
def pluginOkGamma : Plugin :=
  { name := "gamma", availSettable := true, is_available := true,
    raises := Option.none }

/-- The processor state for the C3 instances: two plugins, "alpha" raising
a non-network error before the well-behaved "gamma". -/
def procStateC3 : ProcState :=
  { plugins := [pluginOtherError, pluginOkGamma], reloads := 0,
    processed := [], invoked := [], log := [] }

/-- Counterexample to claim C3 as stated: plugin "alpha" raises a
non-network error on mention 1, which is logged and swallowed; but the
later plugin "beta" raises `MastodonNetworkError` and its read-only
`is_available` makes the handler's flag assignment raise `AttributeError`,
aborting the dispatch and the queue loop — mention 2 is never processed. -/
theorem plugin_isolation_counterexample :
    processMentions []
      { plugins := [pluginOtherError, pluginNetworkReadonly], reloads := 0,
        processed := [], invoked := [], log := [] } [1, 2]
      = Except.error PyErr.attributeError :=
  rfl

/-- Claim C3 as amended: provided no plugin of the snapshot is in the
aborting state (available, raising `MastodonNetworkError`, with a read-only
`is_available` property), a plugin raising any non-network error has the
error logged and swallowed, every later plugin is still dispatched —
invoked when its availability flag is true, skipped with a warning
otherwise — and the processor proceeds to the next queued mention. -/
theorem plugin_isolation_amended (loader pre post : List Plugin) (p : Plugin)
    (e : PyErr) (s : ProcState) (m : Nat) (ms : List Nat)
    (hplug : s.plugins = pre ++ p :: post)
    (hav : p.is_available = true)
    (hr : p.raises = some e)
    (he : e ≠ PyErr.mastodonNetworkError)
    (hna : ∀ q ∈ s.plugins, aborts q = false) :
    process_mention loader s m = Except.ok (afterMention loader s m)
    ∧ LogEntry.errOther p.name ∈ (afterMention loader s m).log
    ∧ (afterMention loader s m).invoked
        = s.invoked ++ concatMap (stepInv m) pre ++ [(m, p.name)]
            ++ concatMap (stepInv m) post
    ∧ processMentions loader s (m :: ms)
        = processMentions loader (afterMention loader s m) ms := by
  have hok := process_mention_ok loader s m hna
  have hmem : p ∈ s.plugins := by
    rw [hplug]
    exact List.mem_append.mpr (Or.inr (List.mem_cons_self p post))
  have hstep : stepLog p = [LogEntry.errOther p.name] := by
    cases e with
    | mastodonNetworkError => exact absurd rfl he
    | attributeError => simp [stepLog, hav, hr]
    | syntaxError => simp [stepLog, hav, hr]
    | valueError => simp [stepLog, hav, hr]
  have hpinv : stepInv m p = [(m, p.name)] := by simp [stepInv, hav]
  refine ⟨hok, ?_, ?_, ?_⟩
  · show LogEntry.errOther p.name ∈
      s.log ++ (LogEntry.infoMention m :: concatMap stepLog s.plugins)
    have hin : LogEntry.errOther p.name ∈ concatMap stepLog s.plugins :=
      mem_concatMap stepLog s.plugins p (LogEntry.errOther p.name) hmem
        (by simp [hstep])
    exact List.mem_append.mpr (Or.inr (List.mem_cons_of_mem _ hin))
  · show s.invoked ++ concatMap (stepInv m) s.plugins = _
    rw [hplug, concatMap_append, concatMap_cons, hpinv]
    simp [List.append_assoc]
  · simp [processMentions, hok]

/-- Witness for C3's amended claim: "alpha" raises a non-network error on
mention 1, the dispatch completes, and the loop proceeds to mention 2. -/
theorem plugin_isolation_amended_witness :
    process_mention [] procStateC3 1 = Except.ok (afterMention [] procStateC3 1)
    ∧ processMentions [] procStateC3 [1, 2]
        = processMentions [] (afterMention [] procStateC3 1) [2] :=
  ⟨(plugin_isolation_amended [] [] [pluginOkGamma] pluginOtherError
      PyErr.valueError procStateC3 1 [2] rfl rfl rfl (by decide) (by decide)).1,
   (plugin_isolation_amended [] [] [pluginOkGamma] pluginOtherError
      PyErr.valueError procStateC3 1 [2] rfl rfl rfl (by decide)
      (by decide)).2.2.2⟩

end MastodonBot
